import Mathlib

/-!
Verification of the NEST `hh_cond_beta_gap_traub` neuron model header
(`hh_cond_beta_gap_traub.h`) and the compartmental model header (`cm_main.h`).

Doubles are embedded as rationals (`ℚ`) for the discrete bookkeeping parts,
and as reals (`ℝ`) for the continuous beta-function conductance analysis.
C++ exceptions are embedded as an explicit error component: a member function
that can throw is modelled as returning the object state after the call
together with `Option NestError` (the C++ object retains all mutations made
before the throw), or as `Except NestError` when no mutation precedes a throw.
GSL workspace pointers and the data logger are external resources; only their
numerically relevant fields appear in `Buffers_`.
-/

namespace Nest

/-- Errors thrown by the modelled member functions. -/
inductive NestError where
  | BadProperty : NestError
  | UnknownReceptorType : ℤ → NestError
  | IncompatibleReceptorType : ℤ → NestError
  | GSLSolverFailure : NestError
  | NonIntegerRefractorySteps : NestError
deriving DecidableEq, Repr

/-- Independent parameters of the model (`struct Parameters_`). -/
structure Parameters_ where
  g_Na : ℚ
  g_K : ℚ
  g_L : ℚ
  C_m : ℚ
  E_Na : ℚ
  E_K : ℚ
  E_L : ℚ
  V_T : ℚ
  E_ex : ℚ
  E_in : ℚ
  tau_rise_ex : ℚ
  tau_decay_ex : ℚ
  tau_rise_in : ℚ
  tau_decay_in : ℚ
  t_ref_ : ℚ
  I_e : ℚ
deriving DecidableEq, Repr

/-- Size of the state vector `y_` (`State_::STATE_VEC_SIZE`). -/
def STATE_VEC_SIZE : ℕ := 8

/-- Symbolic index `State_::V_M` into the state vector. -/
def V_M : Fin STATE_VEC_SIZE := ⟨0, by decide⟩

/-- State variables of the model (`struct State_`): the state vector `y_`
and the number of remaining refractory steps `r_` (a C++ `int`). -/
structure State_ where
  y_ : Fin STATE_VEC_SIZE → ℚ
  r_ : ℤ
deriving DecidableEq

/-- Internal variables of the model (`struct Variables_`). -/
structure Variables_ where
  PSConInit_E : ℚ
  PSConInit_I : ℚ
  refractory_counts_ : ℤ
  U_old_ : ℚ
deriving DecidableEq, Repr

/-- Buffers of the model (`struct Buffers_`), restricted to the plain
numeric fields; ring buffers, the logger and the GSL workspace pointers
are external resources outside the embedding. -/
structure Buffers_ where
  step_ : ℚ
  IntegrationStep_ : ℚ
  lag_ : ℤ
  last_y_values : List ℚ
  sumj_g_ij_ : ℚ
  interpolation_coefficients : List ℚ
  I_stim_ : ℚ
deriving DecidableEq

/-- The neuron object: members `P_`, `S_`, `V_`, `B_` of
`class hh_cond_beta_gap_traub`. -/
structure Neuron where
  P_ : Parameters_
  S_ : State_
  V_ : Variables_
  B_ : Buffers_
deriving DecidableEq

/-! ## `update` and `wfr_update` (source lines 398–412)

The private worker `update_( Time const&, const long, const long, const bool )`
is declared but its body is not part of the header; both public entry points
delegate to it.  It is embedded as an explicit function argument
`upd : Neuron → Bool → Neuron × Bool` mapping the object state and the
`called_from_wfr_update` flag to the object state after the call and the
returned `wfr_tol_exceeded` flag. -/

/-- `hh_cond_beta_gap_traub::update`: calls `update_(origin, from, to, false)`
and discards the returned flag. -/
def update (upd : Neuron → Bool → Neuron × Bool) (n : Neuron) : Neuron :=
  (upd n false).1

/-- `hh_cond_beta_gap_traub::wfr_update`: saves `S_`, calls
`update_(origin, from, to, true)`, restores the saved `S_`, and returns
`not wfr_tol_exceeded`. -/
def wfr_update (upd : Neuron → Bool → Neuron × Bool) (n : Neuron) :
    Neuron × Bool :=
  let old_state := n.S_
  let r := upd n true
  ({ r.1 with S_ := old_state }, ! r.2)

/-! ## `handles_test_event` overloads (source lines 424–462)

Each overload throws `UnknownReceptorType` when `receptor_type != 0`;
no member is mutated before the throw.  The `DataLoggingRequest` overload
returns `B_.logger_.connect_logging_device( dlr, recordablesMap_ )` on the
recognized port; the logger lives outside the embedding, so the connect call
is an explicit argument mapping the object to the returned port and the
object state after the call. -/

/-- `handles_test_event( SpikeEvent&, rport )`. -/
def handles_test_event_spike (n : Neuron) (receptor_type : ℤ) :
    Neuron × Except NestError ℤ :=
  if receptor_type ≠ 0 then
    (n, .error (.UnknownReceptorType receptor_type))
  else
    (n, .ok 0)

/-- `handles_test_event( CurrentEvent&, rport )`. -/
def handles_test_event_current (n : Neuron) (receptor_type : ℤ) :
    Neuron × Except NestError ℤ :=
  if receptor_type ≠ 0 then
    (n, .error (.UnknownReceptorType receptor_type))
  else
    (n, .ok 0)

/-- `handles_test_event( GapJunctionEvent&, rport )`. -/
def handles_test_event_gap (n : Neuron) (receptor_type : ℤ) :
    Neuron × Except NestError ℤ :=
  if receptor_type ≠ 0 then
    (n, .error (.UnknownReceptorType receptor_type))
  else
    (n, .ok 0)

/-- `handles_test_event( DataLoggingRequest&, rport )`; `connect` embeds
`B_.logger_.connect_logging_device( dlr, recordablesMap_ )`. -/
def handles_test_event_dlr (connect : Neuron → ℤ × Neuron) (n : Neuron)
    (receptor_type : ℤ) : Neuron × Except NestError ℤ :=
  if receptor_type ≠ 0 then
    (n, .error (.UnknownReceptorType receptor_type))
  else
    ((connect n).2, .ok (connect n).1)

/-! ## Calibration (spec §4.1, §7)

Only the declaration `void calibrate();` is in the header; its body is
modelled from the spec. -/

/-- Modelled from the spec: the body of `calibrate` is not in `src/`; the
spec (§4.1) prescribes "the integer refractory-step count (duration divided
by step size, rounded to the nearest step, error if the result is not a
whole number of steps within tolerance)".  `h` is the simulation step size,
`tol` the whole-number tolerance. -/
def refractory_steps (t_ref h tol : ℚ) : Except NestError ℤ :=
  let q := t_ref / h
  let n := round q
  if |q - (n : ℚ)| ≤ tol then .ok n else .error .NonIntegerRefractorySteps

/-- Modelled from the spec: the body of `calibrate` is not in `src/`; the
spec (§4.1) has it recompute the unit-amplitude normalization impulses and
the refractory-step count, "overwrites Variables only; never touches State",
and on a configuration error "old Parameters/Variables retained, caller
notified, no state mutation" (§7).  `norm` embeds `get_normalisation_factor`
(body also not in `src/`). -/
def calibrate (norm : ℚ → ℚ → ℚ) (h tol : ℚ) (n : Neuron) :
    Neuron × Option NestError :=
  match refractory_steps n.P_.t_ref_ h tol with
  | .error e => (n, some e)
  | .ok rc =>
      ({ n with
          V_ :=
            { PSConInit_E := norm n.P_.tau_rise_ex n.P_.tau_decay_ex
              PSConInit_I := norm n.P_.tau_rise_in n.P_.tau_decay_in
              refractory_counts_ := rc
              U_old_ := n.S_.y_ V_M } },
        none)

/-! ## `set_status` (source lines 476–495)

`Parameters_::set`, `State_::set` and `Archiving_Node::set_status` are
declared but their bodies are not in the header; they are embedded as
explicit fallible function arguments over an abstract dictionary type.
The source works on temporaries `ptmp`/`stmp` and writes them back to
`P_`/`S_` only after all three validations pass, then calls `calibrate()`. -/

/-- `hh_cond_beta_gap_traub::set_status`: validates into temporaries
`ptmp := pset d P_` and `stmp := sset d ptmp S_`, validates the parent
class (`aset`), and only then commits `P_ := ptmp`, `S_ := stmp` and
invokes `calibrate`. -/
def set_status {Dict : Type}
    (pset : Dict → Parameters_ → Except NestError Parameters_)
    (sset : Dict → Parameters_ → State_ → Except NestError State_)
    (aset : Dict → Except NestError Unit)
    (norm : ℚ → ℚ → ℚ) (h tol : ℚ)
    (n : Neuron) (d : Dict) : Neuron × Option NestError :=
  match pset d n.P_ with
  | .error e => (n, some e)
  | .ok ptmp =>
      match sset d ptmp n.S_ with
      | .error e => (n, some e)
      | .ok stmp =>
          match aset d with
          | .error e => (n, some e)
          | .ok _ => calibrate norm h tol { n with P_ := ptmp, S_ := stmp }

/-! ## Spike detection and refractoriness (spec §4.4)

The body of `update_` is not in `src/`; the per-step detector and
refractory state machine are modelled from the spec. -/

/-- Modelled from the spec: the detector test of `update_` (body not in
`src/`).  Documentation in the header (lines 92–100): "a spike is emitted if
V_m >= V_T + 30 mV and V_m has fallen during the current time step"; the
spec requires strict decrease from the previous step's stored potential
`U_old_` to the current potential. -/
def spike_condition (v_t u_old v : ℚ) : Bool :=
  (v_t + 30 ≤ v) && (v < u_old)

/-- Modelled from the spec: the per-step refractory/detector state machine
of `update_` (body not in `src/`), spec §4.4: while the refractory counter
`r` is positive it decrements by one and detection is skipped; otherwise
the detector test is evaluated once, and on a spike the counter is set to
the calibrated `refractory_counts`.  Returns the new counter and whether a
spike was emitted at this step boundary. -/
def refractory_spike_step (v_t : ℚ) (refractory_counts : ℤ) (u_old v : ℚ)
    (r : ℤ) : ℤ × Bool :=
  if 0 < r then (r - 1, false)
  else if spike_condition v_t u_old v then (refractory_counts, true)
  else (r, false)

/-! ## Adaptive ODE integration loop (spec §4.3, §7)

The body of `update_` is not in `src/`; the GSL evolution loop is modelled
from the spec with the per-sub-step evolution (`gsl_odeiv_evolve_apply`,
an external library call) as an explicit fallible argument. -/

/-- Modelled from the spec: the GSL sub-stepping loop of `update_` (body not
in `src/`).  Each sub-step either advances the state or reports failure
(the adaptive scheme found no accepted sub-step above the minimum size);
on failure the loop "must fail loudly (not silently clamp)" (§4.3), raising
the distinguishable `GSLSolverFailure` and returning no state. -/
def integrate_substeps {σ : Type} (evolve : σ → Except NestError σ) :
    ℕ → σ → Except NestError σ
  | 0, s => .ok s
  | k + 1, s =>
      match evolve s with
      | .error _ => .error .GSLSolverFailure
      | .ok s1 => integrate_substeps evolve k s1

/-- A state reached from `s` by a chain of `k` *accepted* sub-steps of
`evolve`: the only way `integrate_substeps` may produce a committed state. -/
inductive EvolveChain {σ : Type} (evolve : σ → Except NestError σ) :
    ℕ → σ → σ → Prop where
  | refl (s : σ) : EvolveChain evolve 0 s s
  | step {k : ℕ} {s s1 s2 : σ} (hs : evolve s = .ok s1)
      (hc : EvolveChain evolve k s1 s2) : EvolveChain evolve (k + 1) s s2

/-! ## `cm_main` (src/models/cm_main.h, lines 185–193)

`cm_main::handles_test_event( SpikeEvent&, rport )` accepts a connection on
receptor port `r` only when `0 <= r < syn_receptors.size()`, throwing
`IncompatibleReceptorType` otherwise and returning `r` itself on success.
Only the size of `syn_receptors` is relevant. -/

namespace CmMain

/-- `cm_main::handles_test_event( SpikeEvent&, rport )`. -/
def handles_test_event_spike (syn_receptors_size : ℕ) (receptor_type : ℤ) :
    Except NestError ℤ :=
  if receptor_type < 0 ∨ (syn_receptors_size : ℤ) ≤ receptor_type then
    .error (.IncompatibleReceptorType receptor_type)
  else
    .ok receptor_type

end CmMain

/-! ## Concrete instances used by witnesses -/

/-- A concrete parameter record (values per the model's documented defaults). -/
def defaultParameters : Parameters_ :=
  { g_Na := 20000, g_K := 6000, g_L := 10, C_m := 200
    E_Na := 50, E_K := -90, E_L := -60, V_T := -63
    E_ex := 0, E_in := -80
    tau_rise_ex := 1/5, tau_decay_ex := 5
    tau_rise_in := 2, tau_decay_in := 10
    t_ref_ := 2, I_e := 0 }

/-- A concrete state record: resting potential, all other entries zero. -/
def defaultState : State_ :=
  { y_ := fun i => if i = V_M then -60 else 0, r_ := 0 }

/-- A concrete neuron object used by witnesses. -/
def defaultNeuron : Neuron :=
  { P_ := defaultParameters
    S_ := defaultState
    V_ := { PSConInit_E := 0, PSConInit_I := 0, refractory_counts_ := 20
            U_old_ := -60 }
    B_ := { step_ := 1/10, IntegrationStep_ := 1/10, lag_ := 0
            last_y_values := [], sumj_g_ij_ := 0
            interpolation_coefficients := [], I_stim_ := 0 } }

/-! ## Beta-function conductance normalization (spec §4.1, §8; header doc
lines 102–106)

The bodies of `get_normalisation_factor` and of the dynamics function are
not in `src/`; the single-spike conductance response is modelled from the
spec over the reals.  The glossary describes the beta-function conductance
as "a pair of coupled exponential decays (jump + level)": an impulse `N` on
the jump variable `dg` with `dg/dt = -dg/τ_rise` drives the level
`g` with `dg_level/dt = dg - g/τ_decay`, whose solution from rest is
`g(t) = N·(exp(-t/τ_decay) - exp(-t/τ_rise))/(1/τ_rise - 1/τ_decay)`. -/

/-- Modelled from the spec: the time after arrival at which the
difference-of-exponentials conductance waveform attains its maximum. -/
noncomputable def beta_peak_time (tau_rise tau_decay : ℝ) : ℝ :=
  tau_rise * tau_decay * Real.log (tau_decay / tau_rise) /
    (tau_decay - tau_rise)

/-- Modelled from the spec: the unnormalized beta-function conductance
excursion evoked by a unit impulse on the jump variable at `t = 0`. -/
noncomputable def beta_shape (tau_rise tau_decay t : ℝ) : ℝ :=
  (Real.exp (-t / tau_decay) - Real.exp (-t / tau_rise)) /
    (1 / tau_rise - 1 / tau_decay)

/-- Modelled from the spec: `get_normalisation_factor` (body not in
`src/`); spec §4.1 has the calibrator compute "the unit-amplitude
normalization impulses", i.e. the impulse under which the peak of the
conductance excursion equals 1. -/
noncomputable def get_normalisation_factor (tau_rise tau_decay : ℝ) : ℝ :=
  1 / beta_shape tau_rise tau_decay (beta_peak_time tau_rise tau_decay)

/-- The conductance response of one synaptic channel to a single spike of
weight 1 arriving at `t = 0`: the calibrated impulse (`PSConInit`) scaled
beta excursion. -/
noncomputable def conductance_response (tau_rise tau_decay t : ℝ) : ℝ :=
  get_normalisation_factor tau_rise tau_decay *
    beta_shape tau_rise tau_decay t

/-! # Theorems -/

/-- C2: every call to `wfr_update` (a non-committing waveform-relaxation
pass) leaves the externally visible committed state `S_` exactly as it was
before the call, whatever the underlying `update_` does and whether or not
the pass reported convergence: the saved `old_state` is written back after
`update_` returns. -/
theorem wfr_update_preserves_committed_state
    (upd : Neuron → Bool → Neuron × Bool) (n : Neuron) :
    ((wfr_update upd n).1).S_ = n.S_ := by
  simp [wfr_update]

/-- C9: `wfr_update` returns `true` exactly when
`update_(origin, from, to, true)` returns `false`; the committing `update`
is exactly `update_(origin, from, to, false)`; and apart from restoring the
saved `S_`, `wfr_update` leaves the object exactly as `update_` left it —
the two entry points differ only in the boolean flag and the save/restore
wrapper. -/
theorem wfr_update_negates_update_flag
    (upd : Neuron → Bool → Neuron × Bool) (n : Neuron) :
    (wfr_update upd n).2 = ! (upd n true).2 ∧
    update upd n = (upd n false).1 ∧
    (wfr_update upd n).1 = { (upd n true).1 with S_ := n.S_ } := by
  refine ⟨rfl, rfl, ?_⟩
  simp [wfr_update]

/-- C7: for each of the four event types, a connection request on an
unrecognized receptor port (`receptor_type ≠ 0`) throws
`UnknownReceptorType` and leaves the whole object (hence `P_`, `S_`, `V_`
and `B_`) unchanged; a request on port 0 succeeds and returns port 0
(for `DataLoggingRequest`, provided the external
`connect_logging_device` call returns port 0). -/
theorem handles_test_event_routing
    (connect : Neuron → ℤ × Neuron) (n : Neuron) (r : ℤ)
    (hr : r ≠ 0) (hc : (connect n).1 = 0) :
    handles_test_event_spike n r = (n, .error (.UnknownReceptorType r)) ∧
    handles_test_event_current n r = (n, .error (.UnknownReceptorType r)) ∧
    handles_test_event_gap n r = (n, .error (.UnknownReceptorType r)) ∧
    handles_test_event_dlr connect n r
      = (n, .error (.UnknownReceptorType r)) ∧
    handles_test_event_spike n 0 = (n, .ok 0) ∧
    handles_test_event_current n 0 = (n, .ok 0) ∧
    handles_test_event_gap n 0 = (n, .ok 0) ∧
    (handles_test_event_dlr connect n 0).2 = .ok 0 := by
  refine ⟨?_, ?_, ?_, ?_, ?_, ?_, ?_, ?_⟩ <;>
    simp [handles_test_event_spike, handles_test_event_current,
      handles_test_event_gap, handles_test_event_dlr, hr, hc]

/-- Witness for C7 at a concrete object, port 5 rejected and port 0
accepted, with a connect call returning port 0. -/
theorem handles_test_event_routing_witness :
    handles_test_event_spike defaultNeuron 5
      = (defaultNeuron, .error (.UnknownReceptorType 5)) ∧
    (handles_test_event_dlr (fun m => (0, m)) defaultNeuron 0).2 = .ok 0 := by
  have h := handles_test_event_routing (fun m => (0, m)) defaultNeuron 5
    (by decide) rfl
  exact ⟨h.1, h.2.2.2.2.2.2.2⟩

/-- C10: `cm_main` accepts a `SpikeEvent` connection on receptor port `r`
iff `0 ≤ r < syn_receptors.size()`, returning `r` itself on acceptance; in
particular with no receptors added every request is rejected with
`IncompatibleReceptorType`. -/
theorem cm_main_spike_port_iff (syn_receptors_size : ℕ) (r : ℤ) :
    ((∃ p, CmMain.handles_test_event_spike syn_receptors_size r = .ok p) ↔
      0 ≤ r ∧ r < (syn_receptors_size : ℤ)) ∧
    (0 ≤ r → r < (syn_receptors_size : ℤ) →
      CmMain.handles_test_event_spike syn_receptors_size r = .ok r) ∧
    (syn_receptors_size = 0 →
      CmMain.handles_test_event_spike syn_receptors_size r
        = .error (.IncompatibleReceptorType r)) := by
  by_cases hlt : r < 0 ∨ (syn_receptors_size : ℤ) ≤ r
  · rw [CmMain.handles_test_event_spike, if_pos hlt]
    refine ⟨⟨?_, ?_⟩, ?_, fun _ => rfl⟩
    · rintro ⟨p, hp⟩
      exact Except.noConfusion hp
    · intro hr
      exact absurd hr (by omega)
    · intro h0 hsz
      exact absurd (And.intro h0 hsz) (by omega)
  · rw [CmMain.handles_test_event_spike, if_neg hlt]
    refine ⟨⟨fun _ => by omega, fun _ => ⟨r, rfl⟩⟩, fun _ _ => rfl, ?_⟩
    intro hz
    exact absurd hz (by omega)

/-- Witness for C10: with 2 receptors port 1 is accepted and returns 1;
with no receptors port 1 is rejected. -/
theorem cm_main_spike_port_iff_witness :
    CmMain.handles_test_event_spike 2 1 = .ok 1 ∧
    CmMain.handles_test_event_spike 0 1
      = .error (.IncompatibleReceptorType 1) := by
  exact ⟨(cm_main_spike_port_iff 2 1).2.1 (by decide) (by decide),
    (cm_main_spike_port_iff 0 1).2.2 rfl⟩

/-- Calibration touches `V_` only: `P_` and `S_` are unchanged whether it
succeeds or signals a configuration error. -/
lemma calibrate_preserves_P_S (norm : ℚ → ℚ → ℚ) (h tol : ℚ) (n : Neuron) :
    (calibrate norm h tol n).1.P_ = n.P_ ∧
    (calibrate norm h tol n).1.S_ = n.S_ := by
  cases hrc : refractory_steps n.P_.t_ref_ h tol <;>
    simp [calibrate, hrc]

/-- C1: `set_status` is transactional.  If `Parameters_::set` or
`State_::set` (or the parent-class validation) throws, the object — in
particular `P_` and `S_` — is returned unchanged with the error; if all
validations succeed, the temporaries are committed (`P_ = ptmp`,
`S_ = stmp`) and `calibrate` is invoked on the committed object. -/
theorem set_status_transactional {Dict : Type}
    (pset : Dict → Parameters_ → Except NestError Parameters_)
    (sset : Dict → Parameters_ → State_ → Except NestError State_)
    (aset : Dict → Except NestError Unit)
    (norm : ℚ → ℚ → ℚ) (h tol : ℚ) (n : Neuron) (d : Dict) :
    (∀ e, pset d n.P_ = .error e →
      set_status pset sset aset norm h tol n d = (n, some e)) ∧
    (∀ p e, pset d n.P_ = .ok p → sset d p n.S_ = .error e →
      set_status pset sset aset norm h tol n d = (n, some e)) ∧
    (∀ p s e, pset d n.P_ = .ok p → sset d p n.S_ = .ok s →
      aset d = .error e →
      set_status pset sset aset norm h tol n d = (n, some e)) ∧
    (∀ p s, pset d n.P_ = .ok p → sset d p n.S_ = .ok s →
      aset d = .ok () →
      set_status pset sset aset norm h tol n d
        = calibrate norm h tol { n with P_ := p, S_ := s } ∧
      (set_status pset sset aset norm h tol n d).1.P_ = p ∧
      (set_status pset sset aset norm h tol n d).1.S_ = s) := by
  refine ⟨?_, ?_, ?_, ?_⟩
  · intro e he
    simp [set_status, he]
  · intro p e hp hs
    simp [set_status, hp, hs]
  · intro p s e hp hs ha
    simp [set_status, hp, hs, ha]
  · intro p s hp hs ha
    have hcal : set_status pset sset aset norm h tol n d
        = calibrate norm h tol { n with P_ := p, S_ := s } := by
      simp [set_status, hp, hs, ha]
    refine ⟨hcal, ?_, ?_⟩
    · rw [hcal]
      exact (calibrate_preserves_P_S norm h tol _).1
    · rw [hcal]
      exact (calibrate_preserves_P_S norm h tol _).2

/-- Witness for C1: with validators that accept, the new values are
committed; the committed potential is the resting one. -/
theorem set_status_transactional_witness :
    (@set_status Unit (fun _ _ => .ok defaultParameters)
        (fun _ _ _ => .ok defaultState) (fun _ => .ok ())
        (fun _ _ => 0) (1/10) 0 defaultNeuron ()).1.P_
      = defaultParameters ∧
    (@set_status Unit (fun _ _ => .ok defaultParameters)
        (fun _ _ _ => .ok defaultState) (fun _ => .ok ())
        (fun _ _ => 0) (1/10) 0 defaultNeuron ()).1.S_
      = defaultState := by
  have hw := (set_status_transactional (fun _ _ => .ok defaultParameters)
    (fun _ _ _ => .ok defaultState) (fun _ => .ok ())
    (fun _ _ => 0) (1/10) 0 defaultNeuron ()).2.2.2
    defaultParameters defaultState rfl rfl rfl
  exact ⟨hw.2.1, hw.2.2⟩

/-- C3: in the Active (non-refractory) state, the per-step detector emits a
spike at the step boundary iff the potential is at or above `V_T + 30 mV`
and it strictly decreased from the stored previous potential `U_old_` to
the current one; equality is non-triggering. -/
theorem active_spike_iff (v_t : ℚ) (rc : ℤ) (u_old v : ℚ) (r : ℤ)
    (hr : r ≤ 0) :
    (refractory_spike_step v_t rc u_old v r).2 = true ↔
      (v_t + 30 ≤ v ∧ v < u_old) := by
  have hnot : ¬ 0 < r := by omega
  by_cases hc : spike_condition v_t u_old v
  · rw [refractory_spike_step, if_neg hnot, if_pos hc]
    simp only [spike_condition, Bool.and_eq_true, decide_eq_true_eq] at hc
    simpa using hc
  · rw [refractory_spike_step, if_neg hnot, if_neg hc]
    simp only [spike_condition, Bool.and_eq_true, decide_eq_true_eq,
      not_and] at hc
    constructor
    · intro hfalse
      exact absurd hfalse (by simp)
    · rintro ⟨h1, h2⟩
      exact absurd h2 (hc h1)

/-- Witness for C3: at `V_T = -63`, a potential of `-20` below the previous
`0` triggers a spike; with equal previous potential it does not. -/
theorem active_spike_iff_witness :
    ((-63 : ℚ) + 30 ≤ -20 ∧ (-20 : ℚ) < 0) ∧
    (refractory_spike_step (-63) 20 0 (-20) 0).2 = true ∧
    ¬ (refractory_spike_step (-63) 20 (-20) (-20) 0).2 = true := by
  refine ⟨⟨by norm_num, by norm_num⟩, ?_, ?_⟩
  · exact (active_spike_iff (-63) 20 0 (-20) 0 le_rfl).mpr
      ⟨by norm_num, by norm_num⟩
  · intro hcon
    have := (active_spike_iff (-63) 20 (-20) (-20) 0 le_rfl).mp hcon
    exact absurd this.2 (by norm_num)

/-- C4: the refractory counter invariant.  From a non-negative counter and
a non-negative calibrated count, one step keeps the counter non-negative;
a spike sets it to the calibrated count; while positive it decreases by
exactly one and suppresses spikes regardless of the potentials; at zero
the detector is re-armed (the emitted flag equals the detector test) and a
non-spiking step leaves the counter at zero. -/
theorem refractory_counter_invariant (v_t : ℚ) (rc : ℤ) (u_old v : ℚ)
    (r : ℤ) (hr : 0 ≤ r) (hrc : 0 ≤ rc) :
    0 ≤ (refractory_spike_step v_t rc u_old v r).1 ∧
    ((refractory_spike_step v_t rc u_old v r).2 = true →
      (refractory_spike_step v_t rc u_old v r).1 = rc) ∧
    (0 < r → refractory_spike_step v_t rc u_old v r = (r - 1, false)) ∧
    (r = 0 →
      (refractory_spike_step v_t rc u_old v r).2
        = spike_condition v_t u_old v ∧
      ((refractory_spike_step v_t rc u_old v r).2 = false →
        (refractory_spike_step v_t rc u_old v r).1 = r)) := by
  by_cases hpos : 0 < r
  · rw [refractory_spike_step, if_pos hpos]
    refine ⟨by omega, ?_, fun _ => rfl, ?_⟩
    · intro hfalse
      exact absurd hfalse (by simp)
    · intro hz
      exact absurd hz (by omega)
  · by_cases hc : spike_condition v_t u_old v
    · rw [refractory_spike_step, if_neg hpos, if_pos hc]
      refine ⟨hrc, fun _ => rfl, fun hcon => absurd hcon hpos, ?_⟩
      intro _
      refine ⟨by simp [hc], ?_⟩
      intro hfalse
      exact absurd hfalse (by simp)
    · rw [refractory_spike_step, if_neg hpos, if_neg hc]
      refine ⟨hr, ?_, fun hcon => absurd hcon hpos, ?_⟩
      · intro htrue
        exact absurd htrue (by simp)
      · intro _
        exact ⟨by simp [hc], fun _ => rfl⟩

/-- Witness for C4 at a concrete refractory state: counter 3 decrements to
2 without a spike even though the detector test holds. -/
theorem refractory_counter_invariant_witness :
    refractory_spike_step (-63) 20 0 (-20) 3 = (2, false) ∧
    0 ≤ (refractory_spike_step (-63) 20 0 (-20) 3).1 :=
  ⟨(refractory_counter_invariant (-63) 20 0 (-20) 3 (by norm_num)
      (by norm_num)).2.2.1 (by norm_num),
    (refractory_counter_invariant (-63) 20 0 (-20) 3 (by norm_num)
      (by norm_num)).1⟩

/-- C6: `calibrate` never mutates `State_` (or `Parameters_`); when the
refractory duration is a whole number of steps within tolerance it succeeds
and stores `round(t_ref_ / h)` as the refractory-step count, and otherwise
it signals `NonIntegerRefractorySteps` leaving the whole object unchanged. -/
theorem calibrate_refractory_count (norm : ℚ → ℚ → ℚ) (h tol : ℚ)
    (n : Neuron) :
    (calibrate norm h tol n).1.S_ = n.S_ ∧
    (calibrate norm h tol n).1.P_ = n.P_ ∧
    (|n.P_.t_ref_ / h - (round (n.P_.t_ref_ / h) : ℚ)| ≤ tol →
      (calibrate norm h tol n).2 = none ∧
      (calibrate norm h tol n).1.V_.refractory_counts_
        = round (n.P_.t_ref_ / h)) ∧
    (¬ |n.P_.t_ref_ / h - (round (n.P_.t_ref_ / h) : ℚ)| ≤ tol →
      calibrate norm h tol n = (n, some .NonIntegerRefractorySteps)) := by
  by_cases htol : |n.P_.t_ref_ / h - (round (n.P_.t_ref_ / h) : ℚ)| ≤ tol
  · have hok : refractory_steps n.P_.t_ref_ h tol
        = .ok (round (n.P_.t_ref_ / h)) := by
      rw [refractory_steps]
      simp only [if_pos htol]
    refine ⟨?_, ?_, fun _ => ⟨?_, ?_⟩, fun hcon => absurd htol hcon⟩ <;>
      simp [calibrate, hok]
  · have herr : refractory_steps n.P_.t_ref_ h tol
        = .error .NonIntegerRefractorySteps := by
      rw [refractory_steps]
      simp only [if_neg htol]
    refine ⟨?_, ?_, fun hcon => absurd hcon htol, fun _ => ?_⟩ <;>
      simp [calibrate, herr]

/-- Witness for C6: a 2 ms refractory period at 0.1 ms resolution
calibrates to exactly 20 steps with no error. -/
theorem calibrate_refractory_count_witness :
    (calibrate (fun _ _ => 0) (1/10) 0 defaultNeuron).2 = none ∧
    (calibrate (fun _ _ => 0) (1/10) 0
        defaultNeuron).1.V_.refractory_counts_ = 20 := by
  have hq : defaultNeuron.P_.t_ref_ / (1/10 : ℚ) = ((20 : ℤ) : ℚ) := by
    norm_num [defaultNeuron, defaultParameters]
  have hround : round (defaultNeuron.P_.t_ref_ / (1/10 : ℚ)) = (20 : ℤ) := by
    rw [hq, round_intCast]
  have hw := (calibrate_refractory_count (fun _ _ => 0) (1/10) 0
    defaultNeuron).2.2.1 (by rw [hround, hq]; norm_num)
  exact ⟨hw.1, by rw [hw.2, hround]⟩

/-- C8: the integration loop can only fail with the distinguishable
`GSLSolverFailure`, and any state it commits was reached by a chain of
genuinely accepted sub-steps — no clamped or fabricated state is ever
returned on a numerical failure. -/
theorem integrate_substeps_fail_loudly {σ : Type}
    (evolve : σ → Except NestError σ) (k : ℕ) (s : σ) :
    (∀ e, integrate_substeps evolve k s = .error e →
      e = .GSLSolverFailure) ∧
    (∀ s2, integrate_substeps evolve k s = .ok s2 →
      EvolveChain evolve k s s2) := by
  induction k generalizing s with
  | zero =>
      refine ⟨?_, ?_⟩
      · intro e he
        simp [integrate_substeps] at he
      · intro s2 hs2
        simp [integrate_substeps] at hs2
        rw [hs2]
        exact .refl s2
  | succ k ih =>
      refine ⟨?_, ?_⟩
      · intro e he
        rw [integrate_substeps] at he
        cases hev : evolve s with
        | error e0 =>
            rw [hev] at he
            simp at he
            exact he.symm
        | ok s1 =>
            rw [hev] at he
            exact (ih s1).1 e he
      · intro s2 hs2
        rw [integrate_substeps] at hs2
        cases hev : evolve s with
        | error e0 =>
            rw [hev] at hs2
            simp at hs2
        | ok s1 =>
            rw [hev] at hs2
            exact .step hev ((ih s1).2 s2 hs2)

/-- Witness for C8: two accepted sub-steps commit the honestly integrated
state, and the committed state is certified by an accepted-sub-step chain. -/
theorem integrate_substeps_fail_loudly_witness :
    EvolveChain (fun z : ℤ => Except.ok (z + 1)) 2 0 2 :=
  (integrate_substeps_fail_loudly (fun z : ℤ => Except.ok (z + 1)) 2 0).2
    2 rfl

/-- Bernoulli step for the beta-function maximum: over `v > 0` the map
`v ↦ v - v ^ c` (with real exponent `1 < c`) is maximal at the critical
point `v₀` characterized by `v₀ ^ (c - 1) = 1 / c`. -/
lemma sub_rpow_le_crit {c v v₀ : ℝ} (hc : 1 < c) (hv : 0 < v)
    (hv₀ : 0 < v₀) (hcrit : v₀ ^ (c - 1) = 1 / c) :
    v - v ^ c ≤ v₀ - v₀ ^ c := by
  have hv₀ne : v₀ ≠ 0 := ne_of_gt hv₀
  have hc0 : (0 : ℝ) < c := lt_trans one_pos hc
  have hx : (-1 : ℝ) ≤ v / v₀ - 1 := by
    have hpos : 0 < v / v₀ := div_pos hv hv₀
    linarith
  have hb := one_add_mul_self_le_rpow_one_add hx (le_of_lt hc)
  rw [show (1 : ℝ) + (v / v₀ - 1) = v / v₀ by ring,
    Real.div_rpow (le_of_lt hv) (le_of_lt hv₀)] at hb
  have hv₀c : 0 < v₀ ^ c := Real.rpow_pos_of_pos hv₀ c
  have hmul := mul_le_mul_of_nonneg_left hb (le_of_lt hv₀c)
  have hr : v₀ ^ c * (v ^ c / v₀ ^ c) = v ^ c := by
    rw [mul_comm]
    exact div_mul_cancel₀ _ (ne_of_gt hv₀c)
  rw [hr] at hmul
  have h1 : c * v₀ ^ (c - 1) = 1 := by
    rw [hcrit, mul_one_div, div_self (ne_of_gt hc0)]
  have h2 : v₀ ^ (c - 1) * v₀ = v₀ ^ c := by
    rw [Real.rpow_sub_one hv₀ne]
    exact div_mul_cancel₀ _ hv₀ne
  have h3 : v₀ * (v / v₀) = v := by
    rw [mul_comm]
    exact div_mul_cancel₀ _ hv₀ne
  have key : v₀ ^ c * (1 + c * (v / v₀ - 1)) = v₀ ^ c + v - v₀ := by
    linear_combination (c - c * (v / v₀)) * h2 +
      (c * v₀ ^ (c - 1)) * h3 + (v - v₀) * h1
  rw [key] at hmul
  linarith

/-- The beta-function excursion is positive at the peak time and maximal
there among all arguments. -/
lemma beta_shape_le_peak {tau_rise tau_decay : ℝ} (h0 : 0 < tau_rise)
    (hlt : tau_rise < tau_decay) (t : ℝ) :
    0 < beta_shape tau_rise tau_decay (beta_peak_time tau_rise tau_decay) ∧
    beta_shape tau_rise tau_decay t
      ≤ beta_shape tau_rise tau_decay (beta_peak_time tau_rise tau_decay) := by
  have hd0 : 0 < tau_decay := lt_trans h0 hlt
  have hr_ne : tau_rise ≠ 0 := ne_of_gt h0
  have hd_ne : tau_decay ≠ 0 := ne_of_gt hd0
  have hD : 0 < tau_decay - tau_rise := by linarith
  have hD_ne : tau_decay - tau_rise ≠ 0 := ne_of_gt hD
  have hc1 : 1 < tau_decay / tau_rise := (one_lt_div h0).mpr hlt
  have hc0 : 0 < tau_decay / tau_rise := lt_trans one_pos hc1
  have hab : 0 < 1 / tau_rise - 1 / tau_decay := by
    have := one_div_lt_one_div_of_lt h0 hlt
    linarith
  have hcrit : Real.exp (-(tau_rise * Real.log (tau_decay / tau_rise)) /
        (tau_decay - tau_rise)) ^ (tau_decay / tau_rise - 1)
      = 1 / (tau_decay / tau_rise) := by
    rw [← Real.exp_mul]
    have harg : -(tau_rise * Real.log (tau_decay / tau_rise)) /
          (tau_decay - tau_rise) * (tau_decay / tau_rise - 1)
        = -Real.log (tau_decay / tau_rise) := by
      field_simp
      ring
    rw [harg, Real.exp_neg, Real.exp_log hc0, one_div]
  have hv₀ : 0 < Real.exp (-(tau_rise * Real.log (tau_decay / tau_rise)) /
      (tau_decay - tau_rise)) := Real.exp_pos _
  have hvc : ∀ u : ℝ, Real.exp (-u / tau_rise)
      = Real.exp (-u / tau_decay) ^ (tau_decay / tau_rise) := by
    intro u
    rw [← Real.exp_mul]
    have : -u / tau_decay * (tau_decay / tau_rise) = -u / tau_rise := by
      field_simp
      ring
    rw [this]
  have hpt1 : -beta_peak_time tau_rise tau_decay / tau_decay
      = -(tau_rise * Real.log (tau_decay / tau_rise)) /
        (tau_decay - tau_rise) := by
    rw [beta_peak_time]
    field_simp
    ring
  have hshape : ∀ u : ℝ, beta_shape tau_rise tau_decay u
      = (Real.exp (-u / tau_decay)
          - Real.exp (-u / tau_decay) ^ (tau_decay / tau_rise)) /
        (1 / tau_rise - 1 / tau_decay) := by
    intro u
    rw [beta_shape, hvc u]
  have hshape_peak :
      beta_shape tau_rise tau_decay (beta_peak_time tau_rise tau_decay)
      = (Real.exp (-(tau_rise * Real.log (tau_decay / tau_rise)) /
            (tau_decay - tau_rise))
          - Real.exp (-(tau_rise * Real.log (tau_decay / tau_rise)) /
              (tau_decay - tau_rise)) ^ (tau_decay / tau_rise)) /
        (1 / tau_rise - 1 / tau_decay) := by
    rw [hshape (beta_peak_time tau_rise tau_decay), hpt1]
  have hnum : 0 < Real.exp (-(tau_rise * Real.log (tau_decay / tau_rise)) /
        (tau_decay - tau_rise))
      - Real.exp (-(tau_rise * Real.log (tau_decay / tau_rise)) /
          (tau_decay - tau_rise)) ^ (tau_decay / tau_rise) := by
    have h2 : Real.exp (-(tau_rise * Real.log (tau_decay / tau_rise)) /
          (tau_decay - tau_rise)) ^ (tau_decay / tau_rise)
        = Real.exp (-(tau_rise * Real.log (tau_decay / tau_rise)) /
            (tau_decay - tau_rise)) ^ (tau_decay / tau_rise - 1)
          * Real.exp (-(tau_rise * Real.log (tau_decay / tau_rise)) /
              (tau_decay - tau_rise)) := by
      rw [Real.rpow_sub_one (ne_of_gt hv₀)]
      rw [div_mul_cancel₀ _ (ne_of_gt hv₀)]
    rw [h2, hcrit]
    have hfrac : 1 / (tau_decay / tau_rise) < 1 := by
      rw [div_lt_one hc0]
      exact hc1
    nlinarith
  constructor
  · rw [hshape_peak]
    exact div_pos hnum hab
  · rw [hshape t, hshape_peak]
    have hle := sub_rpow_le_crit hc1 (Real.exp_pos (-t / tau_decay)) hv₀ hcrit
    exact (div_le_div_iff_of_pos_right hab).mpr hle

/-- The normalized response never exceeds 1. -/
lemma conductance_response_le_one {tau_rise tau_decay : ℝ}
    (h0 : 0 < tau_rise) (hlt : tau_rise < tau_decay) (t : ℝ) :
    conductance_response tau_rise tau_decay t ≤ 1 := by
  obtain ⟨hpos, hle⟩ := beta_shape_le_peak h0 hlt t
  rw [conductance_response, get_normalisation_factor, one_div]
  calc (beta_shape tau_rise tau_decay
          (beta_peak_time tau_rise tau_decay))⁻¹ *
        beta_shape tau_rise tau_decay t
      ≤ (beta_shape tau_rise tau_decay
          (beta_peak_time tau_rise tau_decay))⁻¹ *
        beta_shape tau_rise tau_decay (beta_peak_time tau_rise tau_decay) :=
        mul_le_mul_of_nonneg_left hle (inv_nonneg.mpr (le_of_lt hpos))
    _ = 1 := inv_mul_cancel₀ (ne_of_gt hpos)

/-- The normalized response attains exactly 1 at the peak time. -/
lemma conductance_response_peak_one {tau_rise tau_decay : ℝ}
    (h0 : 0 < tau_rise) (hlt : tau_rise < tau_decay) :
    conductance_response tau_rise tau_decay
      (beta_peak_time tau_rise tau_decay) = 1 := by
  obtain ⟨hpos, _⟩ := beta_shape_le_peak h0 hlt 0
  rw [conductance_response, get_normalisation_factor, one_div]
  exact inv_mul_cancel₀ (ne_of_gt hpos)

/-- C5 (amended): a single excitatory spike of weight 1 produces a
conductance response whose peak value is exactly 1 (unit-amplitude
normalization), but the peak occurs at
`beta_peak_time = τ_rise·τ_decay·ln(τ_decay/τ_rise)/(τ_decay − τ_rise)`
after arrival — not at the rise time constant; likewise for the inhibitory
channel, the formula depending only on the channel's pair of time
constants. -/
theorem conductance_response_unit_peak (tau_rise tau_decay t : ℝ)
    (h0 : 0 < tau_rise) (hlt : tau_rise < tau_decay) :
    conductance_response tau_rise tau_decay t ≤ 1 ∧
    conductance_response tau_rise tau_decay
      (beta_peak_time tau_rise tau_decay) = 1 :=
  ⟨conductance_response_le_one h0 hlt t,
    conductance_response_peak_one h0 hlt⟩

/-- Witness for C5 at the excitatory-style pair `τ_rise = 1`,
`τ_decay = 2` and a concrete probe time. -/
theorem conductance_response_unit_peak_witness :
    conductance_response 1 2 (37/10) ≤ 1 ∧
    conductance_response 1 2 (beta_peak_time 1 2) = 1 :=
  conductance_response_unit_peak 1 2 (37/10) (by norm_num) (by norm_num)

/-- Counterexample to C5 as stated: with `τ_rise = 1 ms`, `τ_decay = 2 ms`
the response peak (value exactly 1) is attained at
`beta_peak_time 1 2 = 2·ln 2 ≈ 1.386 ms > 1.3 ms`, while at
`t = τ_rise = 1 ms` the response is strictly below 1 — the peak does not
occur at the rise time constant, and not within any numerical tolerance. -/
theorem conductance_peak_not_at_tau_rise :
    conductance_response 1 2 (beta_peak_time 1 2) = 1 ∧
    beta_peak_time 1 2 = 2 * Real.log 2 ∧
    (13/10 : ℝ) < beta_peak_time 1 2 ∧
    conductance_response 1 2 1 < 1 := by
  have hbp : beta_peak_time 1 2 = 2 * Real.log 2 := by
    rw [beta_peak_time]
    norm_num
  have hl2 : Real.exp (Real.log 2) = 2 := Real.exp_log (by norm_num)
  have e1 : Real.exp (-(2 * Real.log 2) / 2) = 1/2 := by
    rw [show -(2 * Real.log 2) / 2 = -Real.log 2 by ring, Real.exp_neg, hl2]
    norm_num
  have e2 : Real.exp (-(2 * Real.log 2) / 1) = 1/4 := by
    rw [show -(2 * Real.log 2) / 1 = -(Real.log 2 + Real.log 2) by ring,
      Real.exp_neg, Real.exp_add, hl2]
    norm_num
  have hshape_peak : beta_shape 1 2 (beta_peak_time 1 2) = 1/2 := by
    rw [hbp, beta_shape, e1, e2]
    norm_num
  have hN : get_normalisation_factor 1 2 = 2 := by
    rw [get_normalisation_factor, hshape_peak]
    norm_num
  refine ⟨?_, hbp, ?_, ?_⟩
  · exact conductance_response_peak_one (by norm_num) (by norm_num)
  · rw [hbp]
    have := Real.log_two_gt_d9
    linarith
  · have hsq : Real.exp (-(1:ℝ))
        = Real.exp (-(1:ℝ)/2) * Real.exp (-(1:ℝ)/2) := by
      rw [← Real.exp_add]
      norm_num
    have hxne : Real.exp (-(1:ℝ)/2) ≠ 1/2 := by
      intro hcontra
      have h4 : Real.exp (-(1:ℝ)) = 1/4 := by
        rw [hsq, hcontra]
        norm_num
      rw [Real.exp_neg] at h4
      have hne : Real.exp (1:ℝ) ≠ 0 := ne_of_gt (Real.exp_pos 1)
      have h5 : Real.exp (1:ℝ) = 4 := by
        field_simp at h4
        linarith
      linarith [Real.exp_one_lt_d9]
    have hval : conductance_response 1 2 1
        = 4 * Real.exp (-(1:ℝ)/2) - 4 * Real.exp (-(1:ℝ)) := by
      rw [conductance_response, hN, beta_shape]
      rw [show (-(1:ℝ)/1) = -1 by norm_num]
      ring
    have hsqpos : 0 < (2 * Real.exp (-(1:ℝ)/2) - 1)^2 := by
      have hne2 : 2 * Real.exp (-(1:ℝ)/2) - 1 ≠ 0 := by
        intro hz
        apply hxne
        linarith
      exact lt_of_le_of_ne (sq_nonneg _) (Ne.symm (pow_ne_zero 2 hne2))
    rw [hval]
    nlinarith [hsq, hsqpos]

end Nest
